import Mathlib

/-!
Shallow embedding of the QuizApp core (persistent store and session engine).

The definitions below are translated from the repository's source:
the store lives in the `StoreProvider` component
(`src/client/navigation/TestsStackNavigator.tsx`, third document section),
and the session engine in `ActiveQuizScreen`
(`src/client/screens/ActiveQuizScreen.tsx`, second document section).

Modelling conventions:
* JavaScript numbers are modelled as `ℚ` where fractional values occur
  (diamonds, score percentages) and as `ℕ`/`ℤ` where the code only ever
  holds integers (counts, order indices, day numbers).
* Calendar dates (`toISOString().split("T")[0]` strings) are modelled as
  integer day numbers since the epoch; a moment in time is a pair of a day
  number `today` and a millisecond offset `s` into that day, so that
  `new Date().getTime() = today * msPerDay + s` and parsing a stored date
  string yields midnight, i.e. `day * msPerDay`.  All times are UTC, which
  is what `toISOString` uses.
* The JS history object (`Record<string, Mark>`) is modelled as a function
  `ℤ → Option DayMark`; property assignment is pointwise update.
* Random id generation and `new Date()` timestamps are passed in as
  explicit parameters (`newId`, `now`).
-/

namespace QuizApp

/-- Answer record: `{id, text, isCorrect}`. -/
structure Answer where
  id : String
  text : String
  isCorrect : Bool
deriving DecidableEq, Repr

/-- Question record: `{id, text, orderIndex, answers}` (images omitted:
they are opaque references never inspected by the core logic). -/
structure Question where
  id : String
  text : String
  orderIndex : Nat
  answers : List Answer
deriving DecidableEq, Repr

/-- Quiz record: `{id, title, description, createdAt, updatedAt, questions}`;
date fields are millisecond timestamps. -/
structure Quiz where
  id : String
  title : String
  description : String
  createdAt : Int
  updatedAt : Int
  questions : List Question
deriving DecidableEq, Repr

/-- QuizRunAnswer record: `{questionId, selectedAnswerIds, isCorrect}`. -/
structure QuizRunAnswer where
  questionId : String
  selectedAnswerIds : List String
  isCorrect : Bool
deriving DecidableEq, Repr

/-- QuizRun record; `isIncomplete` and `diamondsEarned` are optional fields
of the TypeScript interface. -/
structure QuizRun where
  id : String
  quizId : String
  quizTitle : String
  timestamp : Int
  scorePercentage : ℚ
  totalQuestions : Nat
  correctCount : Nat
  wrongCount : Nat
  answers : List QuizRunAnswer
  isIncomplete : Option Bool
  diamondsEarned : Option ℚ
deriving DecidableEq, Repr

/-- PausedRun record. -/
structure PausedRun where
  id : String
  quizId : String
  currentQuestionIndex : Nat
  selectedAnswerIds : List String
  answers : List QuizRunAnswer
  timestamp : Int
  shuffle : Bool
  shuffleAnswers : Option Bool
  questionIds : Option (List String)
deriving DecidableEq, Repr

/-- Settings record. -/
structure Settings where
  defaultShuffle : Bool
  defaultShuffleAnswers : Bool
  displayName : String
  avatarPreset : Nat
  profileImage : Option String
  vibrationEnabled : Bool
  autoAdvanceDelay : ℚ
  manualConfirmation : Bool
deriving DecidableEq, Repr

/-- One mark in the streak history: `"completed" | "freezed" | "missed"`. -/
inductive DayMark where
  | completed
  | freezed
  | missed
deriving DecidableEq, Repr

/-- StreakData record; `lastCompletedDate` is an optional day number and
`history` maps day numbers to marks (JS object keyed by date string). -/
structure StreakData where
  currentStreak : Int
  lastCompletedDate : Option Int
  freezers : Int
  history : Int → Option DayMark

/-- The whole persistent store state. -/
structure StoreState where
  quizzes : List Quiz
  runs : List QuizRun
  pausedRuns : List PausedRun
  settings : Settings
  streak : StreakData
  diamonds : ℚ

/-- Milliseconds per calendar day, the constant `1000 * 60 * 60 * 24`. -/
def msPerDay : Int := 86400000

/-- `Math.ceil(a / b)` for integers with `b > 0`: floor division of
`a + b - 1` by `b` (`Int.fdiv` rounds toward negative infinity, so this
is the exact ceiling of the rational `a / b`). -/
def jsCeil (a b : Int) : Int := (a + b - 1).fdiv b

/-- JS object property assignment `h[day] = m` on a history map. -/
def updateHistory (h : Int → Option DayMark) (day : Int) (m : DayMark) :
    Int → Option DayMark :=
  fun d => if d = day then some m else h d

/-- The loop `for (let i = 1; i <= diffDays; i++) newHistory[lastDate + i] = "freezed"`. -/
def markFreezedRange (h : Int → Option DayMark) (lastDay : Int) (diffDays : Nat) :
    Int → Option DayMark :=
  (List.range diffDays).foldl
    (fun acc i => updateHistory acc (lastDay + (i : Int) + 1) DayMark.freezed) h

/-- The `checkStreak` gap check run on store initialization
(`TestsStackNavigator.tsx` store section, `useEffect` after load).
`today` is the current day number and `s` the millisecond offset of the
current moment into that day, so `new Date().getTime() = today * msPerDay + s`
and `new Date(prev.lastCompletedDate).getTime() = lastDay * msPerDay`. -/
def checkStreak (today s : Int) (prev : StreakData) : StreakData :=
  if prev.lastCompletedDate = some today then prev
  else if prev.lastCompletedDate = some (today - 1) then prev
  else
    match prev.lastCompletedDate with
    | none => prev
    | some lastDay =>
      let diffTime : Int := |today * msPerDay + s - lastDay * msPerDay|
      let diffDays : Int := jsCeil diffTime msPerDay - 1
      if 0 < diffDays then
        if diffDays ≤ prev.freezers then
          { prev with
            freezers := prev.freezers - diffDays
            lastCompletedDate := some (today - 1)
            history := markFreezedRange prev.history lastDay diffDays.toNat }
        else
          { prev with currentStreak := 0 }
      else prev

/-- The `updateStreak` completion transition (store section).  `today` is the
current day number; "yesterday" in the source is `today - 1`. -/
def updateStreak (today : Int) (prev : StreakData) : StreakData :=
  if prev.lastCompletedDate = some today then prev
  else
    { prev with
      currentStreak :=
        if prev.lastCompletedDate = some (today - 1) then prev.currentStreak + 1 else 1
      lastCompletedDate := some today
      history := updateHistory prev.history today DayMark.completed }

/-- The `buyFreezer` operation (store section): checks only the diamond
balance, debits 100 and increments the freezer count on success. -/
def buyFreezer (s : StoreState) : Bool × StoreState :=
  if 100 ≤ s.diamonds then
    (true,
      { s with
        diamonds := s.diamonds - 100
        streak := { s.streak with freezers := s.streak.freezers + 1 } })
  else
    (false, s)

/-- The `deleteQuiz` operation (store section): drops the quiz and filters
runs and paused runs by `quizId`. -/
def deleteQuiz (id : String) (s : StoreState) : StoreState :=
  { s with
    quizzes := s.quizzes.filter (fun q => q.id != id)
    runs := s.runs.filter (fun r => r.quizId != id)
    pausedRuns := s.pausedRuns.filter (fun r => r.quizId != id) }

/-- Recursion underlying `reorderQuestions`:
`questionIds.map((id, index) => ...).filter(Boolean)` — each id is looked up
in the quiz's question list and, when found, kept with `orderIndex` set to
its position in the id sequence; missing ids are dropped. -/
def reorderAux (qs : List Question) : List String → Nat → List Question
  | [], _ => []
  | id :: rest, n =>
    match qs.find? (fun q => q.id == id) with
    | some q => { q with orderIndex := n } :: reorderAux qs rest (n + 1)
    | none => reorderAux qs rest (n + 1)

/-- The question-list transformation performed by `reorderQuestions`
(store section) on the quiz whose id matches. -/
def reorderQuestionList (qs : List Question) (ids : List String) : List Question :=
  reorderAux qs ids 0

/-- The `reorderQuestions` operation restricted to the matching quiz
(the store maps this over its quiz list): replaces the question list and
bumps `updatedAt`. -/
def reorderQuestions (quiz : Quiz) (ids : List String) (now : Int) : Quiz :=
  { quiz with questions := reorderQuestionList quiz.questions ids, updatedAt := now }

/-- Input to `addRun`: a `QuizRun` without `id`, `timestamp`, `diamondsEarned`. -/
structure RunInput where
  quizId : String
  quizTitle : String
  scorePercentage : ℚ
  totalQuestions : Nat
  correctCount : Nat
  wrongCount : Nat
  answers : List QuizRunAnswer
  isIncomplete : Option Bool
deriving DecidableEq, Repr

/-- The `addRun` operation (store section): computes
`diamondsEarned = totalQuestions * 0.5 * (scorePercentage / 100)`, credits
the balance, and prepends the new run.  Returns the created run together
with the updated store. -/
def addRun (input : RunInput) (newId : String) (now : Int) (s : StoreState) :
    QuizRun × StoreState :=
  let diamondsEarned : ℚ := (input.totalQuestions : ℚ) * 0.5 * (input.scorePercentage / 100)
  let newRun : QuizRun :=
    { id := newId
      quizId := input.quizId
      quizTitle := input.quizTitle
      timestamp := now
      scorePercentage := input.scorePercentage
      totalQuestions := input.totalQuestions
      correctCount := input.correctCount
      wrongCount := input.wrongCount
      answers := input.answers
      isIncomplete := input.isIncomplete
      diamondsEarned := some diamondsEarned }
  (newRun, { s with runs := newRun :: s.runs, diamonds := s.diamonds + diamondsEarned })

/-- `calculateIncompleteScore` (`ActiveQuizScreen.tsx`): correct count over
the submitted answers and a percentage guarded against the empty list.
The `totalQuestions` parameter is accepted but unused, as in the source. -/
def calculateIncompleteScore (answers : List QuizRunAnswer) (totalQuestions : Nat) :
    Nat × ℚ :=
  let correctCount := (answers.filter (fun a => a.isCorrect)).length
  let scorePercentage : ℚ :=
    if 0 < answers.length then ((correctCount : ℚ) / (answers.length : ℚ)) * 100 else 0
  (correctCount, scorePercentage)

/-- The run record built by `handleEndEarly` (`ActiveQuizScreen.tsx`) on its
non-mini-run branch: score over submitted answers only,
`totalQuestions = answers.length`, and `isIncomplete: true`. -/
def endEarlyRunInput (quizId quizTitle : String) (answers : List QuizRunAnswer)
    (numQuestions : Nat) : RunInput :=
  let res := calculateIncompleteScore answers numQuestions
  { quizId := quizId
    quizTitle := quizTitle
    scorePercentage := res.2
    totalQuestions := answers.length
    correctCount := res.1
    wrongCount := answers.length - res.1
    answers := answers
    isIncomplete := some true }

/-- `handleEndEarly`, non-mini-run branch: builds the incomplete run record
and stores it through `addRun`. -/
def handleEndEarly (quizId quizTitle : String) (answers : List QuizRunAnswer)
    (numQuestions : Nat) (newId : String) (now : Int) (s : StoreState) :
    QuizRun × StoreState :=
  addRun (endEarlyRunInput quizId quizTitle answers numQuestions) newId now s

/-- The ids of the current question's correct answers
(`currentQuestion.answers.filter(a => a.isCorrect).map(a => a.id)`). -/
def correctIds (q : Question) : List String :=
  (q.answers.filter (fun a => a.isCorrect)).map (fun a => a.id)

/-- The correctness test of `handleSubmit` (`ActiveQuizScreen.tsx`):
`selected.length === correctIds.length && selected.every(id => correctIds.includes(id))`. -/
def submitIsCorrect (q : Question) (selected : List String) : Bool :=
  selected.length == (correctIds q).length &&
    selected.all (fun id => (correctIds q).contains id)

/-- The guarded answer append of `handleSubmit`: a question already present
in the session's answer list (by `questionId`) is not appended again. -/
def appendAnswer (prev : List QuizRunAnswer) (newAnswer : QuizRunAnswer) :
    List QuizRunAnswer :=
  if prev.any (fun a => a.questionId == newAnswer.questionId) then prev
  else prev ++ [newAnswer]

/-- `handleSubmit` reduced to its recording effect: blocked (`none`, nothing
recorded) when no answer is selected, otherwise the submitted answer — with
`isCorrect` computed by `submitIsCorrect` — is appended through the
duplicate guard. -/
def handleSubmit (q : Question) (selected : List String)
    (answers : List QuizRunAnswer) : Option (List QuizRunAnswer) :=
  if selected.length = 0 then none
  else
    some (appendAnswer answers
      { questionId := q.id, selectedAnswerIds := selected
        isCorrect := submitIsCorrect q selected })

/-! ## Fixtures used by witnesses and counterexamples -/

/-- A concrete settings record (the store's defaults). -/
def exampleSettings : Settings :=
  { defaultShuffle := false
    defaultShuffleAnswers := false
    displayName := ""
    avatarPreset := 0
    profileImage := none
    vibrationEnabled := true
    autoAdvanceDelay := 3 / 2
    manualConfirmation := false }

/-- An empty streak history. -/
def emptyHistory : Int → Option DayMark := fun _ => none

/-- A streak state already holding the maximum of 3 freezers. -/
def freezersFullStreak : StreakData :=
  { currentStreak := 5, lastCompletedDate := some 100, freezers := 3
    history := emptyHistory }

/-- A store with 100 diamonds and 3 freezers. -/
def richFullStore : StoreState :=
  { quizzes := [], runs := [], pausedRuns := [], settings := exampleSettings
    streak := freezersFullStreak, diamonds := 100 }

/-- A store with only 50 diamonds. -/
def poorStore : StoreState :=
  { quizzes := [], runs := [], pausedRuns := [], settings := exampleSettings
    streak := freezersFullStreak, diamonds := 50 }

/-! ## Theorems -/

/-- Claim C6: `updateStreak` is idempotent within a calendar day — when
`lastCompletedDate` already equals today's calendar day, the streak state is
returned unchanged (`currentStreak`, `lastCompletedDate` and `history`
included). -/
theorem updateStreak_noop_of_completed_today (today : Int) (prev : StreakData)
    (h : prev.lastCompletedDate = some today) : updateStreak today prev = prev := by
  simp [updateStreak, h]

/-- Witness for C6 at a concrete streak state completed on day 100. -/
theorem updateStreak_noop_witness :
    updateStreak 100 freezersFullStreak = freezersFullStreak :=
  updateStreak_noop_of_completed_today 100 freezersFullStreak rfl

/-- Claim C8: `deleteQuiz id` removes exactly the quiz with that id and every
run and paused run whose `quizId` equals `id`, keeping everything else;
settings, streak and diamonds are untouched. -/
theorem deleteQuiz_cascades (id : String) (s : StoreState) :
    (∀ q : Quiz, q ∈ (deleteQuiz id s).quizzes ↔ q ∈ s.quizzes ∧ q.id ≠ id) ∧
    (∀ r : QuizRun, r ∈ (deleteQuiz id s).runs ↔ r ∈ s.runs ∧ r.quizId ≠ id) ∧
    (∀ p : PausedRun,
      p ∈ (deleteQuiz id s).pausedRuns ↔ p ∈ s.pausedRuns ∧ p.quizId ≠ id) ∧
    (deleteQuiz id s).settings = s.settings ∧
    (deleteQuiz id s).streak = s.streak ∧
    (deleteQuiz id s).diamonds = s.diamonds := by
  refine ⟨?_, ?_, ?_, rfl, rfl, rfl⟩ <;> intro x <;>
    simp [deleteQuiz, List.mem_filter, bne_iff_ne]

/-- Counterexample to claim C2 as stated: with a balance of exactly 100
diamonds and the freezer count already at the cap of 3, `buyFreezer`
nevertheless returns `true`, debits the 100 diamonds and pushes the freezer
count to 4 — the function performs no cap check. -/
theorem buyFreezer_ignores_cap :
    richFullStore.streak.freezers = 3 ∧
    (buyFreezer richFullStore).1 = true ∧
    (buyFreezer richFullStore).2.streak.freezers = 4 ∧
    (buyFreezer richFullStore).2.diamonds = 0 := by
  refine ⟨rfl, ?_, ?_, ?_⟩ <;> norm_num [buyFreezer, richFullStore, freezersFullStreak]

/-- Claim C2 as amended: `buyFreezer` succeeds exactly when the balance is at
least 100 diamonds — on success it debits 100 and increments the freezer
count by 1 (with no cap check inside the function; the cap of 3 is enforced
by the purchasing screen, which disables the buy action at 3 freezers) — and
otherwise returns `false` leaving the store unchanged. -/
theorem buyFreezer_spec (s : StoreState) :
    ((buyFreezer s).1 = true ↔ 100 ≤ s.diamonds) ∧
    (100 ≤ s.diamonds →
      (buyFreezer s).2.diamonds = s.diamonds - 100 ∧
      (buyFreezer s).2.streak.freezers = s.streak.freezers + 1) ∧
    (¬ 100 ≤ s.diamonds → (buyFreezer s).1 = false ∧ (buyFreezer s).2 = s) := by
  by_cases h : 100 ≤ s.diamonds <;> simp [buyFreezer, h]

/-- Witness for C2's amended claim: the success branch at 100 diamonds and
the failure branch at 50 diamonds. -/
theorem buyFreezer_spec_witness :
    ((buyFreezer richFullStore).2.diamonds = richFullStore.diamonds - 100 ∧
      (buyFreezer richFullStore).2.streak.freezers =
        richFullStore.streak.freezers + 1) ∧
    ((buyFreezer poorStore).1 = false ∧ (buyFreezer poorStore).2 = poorStore) :=
  ⟨(buyFreezer_spec richFullStore).2.1 (by norm_num [richFullStore]),
    (buyFreezer_spec poorStore).2.2 (by norm_num [poorStore])⟩

/-- Claim C7: `addRun` stores
`diamondsEarned = totalQuestions * 0.5 * (scorePercentage / 100)` on the new
run, credits the diamonds balance by exactly that amount, prepends the run to
the front of the ledger, and in particular 10 questions at 80% earn exactly
4 diamonds. -/
theorem addRun_spec (input : RunInput) (newId : String) (now : Int) (s : StoreState) :
    ((addRun input newId now s).1.diamondsEarned =
      some ((input.totalQuestions : ℚ) * 0.5 * (input.scorePercentage / 100))) ∧
    ((addRun input newId now s).2.diamonds =
      s.diamonds + (input.totalQuestions : ℚ) * 0.5 * (input.scorePercentage / 100)) ∧
    ((addRun input newId now s).2.runs = (addRun input newId now s).1 :: s.runs) ∧
    (input.totalQuestions = 10 → input.scorePercentage = 80 →
      (addRun input newId now s).1.diamondsEarned = some 4) := by
  refine ⟨rfl, rfl, rfl, fun h1 h2 => ?_⟩
  simp only [addRun, h1, h2]
  norm_num

/-- A concrete run input: 10 questions, 80% score. -/
def runInput80 : RunInput :=
  { quizId := "quiz", quizTitle := "title", scorePercentage := 80
    totalQuestions := 10, correctCount := 8, wrongCount := 2
    answers := [], isIncomplete := none }

/-- Witness for C7: the 10-question 80% run earns exactly 4 diamonds. -/
theorem addRun_spec_witness :
    (addRun runInput80 "r1" 0 poorStore).1.diamondsEarned = some 4 :=
  (addRun_spec runInput80 "r1" 0 poorStore).2.2.2 rfl (by norm_num [runInput80])

/-- Claim C10: ending early with zero submitted answers is safe — the guarded
division makes `calculateIncompleteScore` return correct count 0 and score 0
on the empty list, and the recorded incomplete run carries
`totalQuestions = 0` and `scorePercentage = 0`. -/
theorem endEarly_empty_safe (quizId quizTitle newId : String) (n : Nat)
    (now : Int) (s : StoreState) :
    calculateIncompleteScore [] n = (0, 0) ∧
    (handleEndEarly quizId quizTitle [] n newId now s).1.totalQuestions = 0 ∧
    (handleEndEarly quizId quizTitle [] n newId now s).1.scorePercentage = 0 ∧
    (handleEndEarly quizId quizTitle [] n newId now s).1.correctCount = 0 ∧
    (handleEndEarly quizId quizTitle [] n newId now s).1.isIncomplete = some true := by
  exact ⟨rfl, rfl, rfl, rfl, rfl⟩

/-- Claim C9: the answer append of `handleSubmit` is idempotent — an answer
list already containing an entry for the submitted question's id is returned
unchanged — and consequently the append keeps the question ids of the answer
list duplicate-free. -/
theorem appendAnswer_idempotent (prev : List QuizRunAnswer) (a : QuizRunAnswer) :
    (a.questionId ∈ prev.map (fun x => x.questionId) → appendAnswer prev a = prev) ∧
    ((prev.map (fun x => x.questionId)).Nodup →
      ((appendAnswer prev a).map (fun x => x.questionId)).Nodup) := by
  constructor
  · intro h
    obtain ⟨x, hx, hqx⟩ := List.mem_map.mp h
    have hany : prev.any (fun y => y.questionId == a.questionId) = true :=
      List.any_eq_true.mpr ⟨x, hx, by simp [hqx]⟩
    simp [appendAnswer, hany]
  · intro h
    by_cases hc : prev.any (fun y => y.questionId == a.questionId) = true
    · simpa [appendAnswer, hc] using h
    · have hna : a.questionId ∉ prev.map (fun x => x.questionId) := by
        intro hmem
        obtain ⟨x, hx, hqx⟩ := List.mem_map.mp hmem
        exact hc (List.any_eq_true.mpr ⟨x, hx, by simp [hqx]⟩)
      have hgoal : (prev.map (fun x => x.questionId) ++ [a.questionId]).Nodup := by
        refine (List.perm_append_singleton _ _).nodup_iff.mpr ?_
        exact List.nodup_cons.mpr ⟨hna, h⟩
      simpa [appendAnswer, hc, List.map_append] using hgoal

/-- A concrete submitted answer for question `q1`. -/
def answerQ1 : QuizRunAnswer :=
  { questionId := "q1", selectedAnswerIds := ["a1"], isCorrect := true }

/-- Witness for C9: re-submitting `q1` against a list already holding an
entry for `q1` changes nothing, and the id list stays duplicate-free. -/
theorem appendAnswer_idempotent_witness :
    appendAnswer [answerQ1] answerQ1 = [answerQ1] ∧
    ((appendAnswer [answerQ1] answerQ1).map (fun x => x.questionId)).Nodup :=
  ⟨(appendAnswer_idempotent [answerQ1] answerQ1).1 (by decide),
    (appendAnswer_idempotent [answerQ1] answerQ1).2 (by decide)⟩

/-- Claim C4: an early-ended session with at least one submitted answer is
recorded with `totalQuestions` equal to the number of submitted answers,
`correctCount` counting the correct ones among them, `wrongCount` their
difference, `scorePercentage = 100 * correctCount / totalQuestions` over
submitted answers only, `isIncomplete = true`, and the run stored in the
ledger. -/
theorem handleEndEarly_spec (quizId quizTitle : String)
    (answers : List QuizRunAnswer) (n : Nat) (newId : String) (now : Int)
    (s : StoreState) (h : answers ≠ []) :
    (handleEndEarly quizId quizTitle answers n newId now s).1.totalQuestions =
      answers.length ∧
    (handleEndEarly quizId quizTitle answers n newId now s).1.correctCount =
      (answers.filter (fun a => a.isCorrect)).length ∧
    (handleEndEarly quizId quizTitle answers n newId now s).1.wrongCount =
      answers.length - (answers.filter (fun a => a.isCorrect)).length ∧
    (handleEndEarly quizId quizTitle answers n newId now s).1.scorePercentage =
      100 * ((answers.filter (fun a => a.isCorrect)).length : ℚ) /
        (answers.length : ℚ) ∧
    (handleEndEarly quizId quizTitle answers n newId now s).1.isIncomplete =
      some true ∧
    (handleEndEarly quizId quizTitle answers n newId now s).2.runs =
      (handleEndEarly quizId quizTitle answers n newId now s).1 :: s.runs := by
  have hpos : 0 < answers.length := List.length_pos.mpr h
  refine ⟨rfl, rfl, rfl, ?_, rfl, rfl⟩
  show (endEarlyRunInput quizId quizTitle answers n).scorePercentage = _
  simp only [endEarlyRunInput, calculateIncompleteScore, if_pos hpos]
  ring

/-- Witness for C4: one submitted answer (correct) out of a 5-question quiz. -/
theorem handleEndEarly_spec_witness :
    (handleEndEarly "quiz" "title" [answerQ1] 5 "r2" 0 poorStore).1.totalQuestions =
      [answerQ1].length ∧
    (handleEndEarly "quiz" "title" [answerQ1] 5 "r2" 0 poorStore).1.correctCount =
      ([answerQ1].filter (fun a => a.isCorrect)).length ∧
    (handleEndEarly "quiz" "title" [answerQ1] 5 "r2" 0 poorStore).1.wrongCount =
      [answerQ1].length - ([answerQ1].filter (fun a => a.isCorrect)).length ∧
    (handleEndEarly "quiz" "title" [answerQ1] 5 "r2" 0 poorStore).1.scorePercentage =
      100 * (([answerQ1].filter (fun a => a.isCorrect)).length : ℚ) /
        (([answerQ1] : List QuizRunAnswer).length : ℚ) ∧
    (handleEndEarly "quiz" "title" [answerQ1] 5 "r2" 0 poorStore).1.isIncomplete =
      some true ∧
    (handleEndEarly "quiz" "title" [answerQ1] 5 "r2" 0 poorStore).2.runs =
      (handleEndEarly "quiz" "title" [answerQ1] 5 "r2" 0 poorStore).1 ::
        poorStore.runs :=
  handleEndEarly_spec "quiz" "title" [answerQ1] 5 "r2" 0 poorStore (by decide)

/-- Claim C3: the recorded `isCorrect` is `true` exactly when the selected
answer ids form the same set as the question's correct answer ids (so strict
subsets, supersets and the empty selection are wrong); a submission with zero
selected answers is blocked and records nothing, and a non-empty submission
records through the duplicate-guarded append with this correctness bit.
Hypotheses: the toggle-based selection holds no duplicate ids and the
question's answer ids are distinct (data-model invariant). -/
theorem submit_correct_iff (q : Question) (selected : List String)
    (hsel : selected.Nodup) (hids : (q.answers.map (fun a => a.id)).Nodup) :
    (submitIsCorrect q selected = true ↔
      selected.toFinset = (correctIds q).toFinset) ∧
    (∀ answers : List QuizRunAnswer, handleSubmit q [] answers = none) ∧
    (∀ answers : List QuizRunAnswer, selected ≠ [] →
      handleSubmit q selected answers =
        some (appendAnswer answers
          { questionId := q.id, selectedAnswerIds := selected
            isCorrect := submitIsCorrect q selected })) := by
  have hcor : (correctIds q).Nodup := by
    have hsub : List.Sublist
        ((q.answers.filter (fun a => a.isCorrect)).map (fun a => a.id))
        (q.answers.map (fun a => a.id)) :=
      (List.filter_sublist q.answers).map (fun a => a.id)
    exact hids.sublist hsub
  refine ⟨?_, fun answers => rfl, fun answers hne => ?_⟩
  · constructor
    · intro hic
      simp only [submitIsCorrect, Bool.and_eq_true, beq_iff_eq,
        List.all_eq_true] at hic
      obtain ⟨hlen, hall⟩ := hic
      have hsubset : selected.toFinset ⊆ (correctIds q).toFinset := by
        intro x hx
        rw [List.mem_toFinset] at hx ⊢
        simpa using hall x hx
      refine Finset.eq_of_subset_of_card_le hsubset ?_
      rw [List.toFinset_card_of_nodup hsel, List.toFinset_card_of_nodup hcor, hlen]
    · intro hset
      have hmem : ∀ x, x ∈ selected ↔ x ∈ correctIds q := by
        intro x
        rw [← List.mem_toFinset, hset, List.mem_toFinset]
      have hlen : selected.length = (correctIds q).length := by
        rw [← List.toFinset_card_of_nodup hsel, ← List.toFinset_card_of_nodup hcor,
          hset]
      simp only [submitIsCorrect, Bool.and_eq_true, beq_iff_eq, List.all_eq_true]
      exact ⟨hlen, fun x hx => by simpa using (hmem x).mp hx⟩
  · have hnz : selected.length ≠ 0 := fun habs => hne (List.length_eq_zero.mp habs)
    simp [handleSubmit, hnz]

/-- A concrete multi-select question: answers `a` and `b` are correct, `c` is
not. -/
def questionAB : Question :=
  { id := "q1", text := "pick", orderIndex := 0
    answers :=
      [{ id := "a", text := "", isCorrect := true },
       { id := "b", text := "", isCorrect := true },
       { id := "c", text := "", isCorrect := false }] }

/-- Witness for C3 at the concrete question with correct set `{a, b}` and
the (order-swapped) selection `[b, a]`. -/
theorem submit_correct_iff_witness :
    (submitIsCorrect questionAB ["b", "a"] = true ↔
      (["b", "a"] : List String).toFinset = (correctIds questionAB).toFinset) ∧
    (∀ answers : List QuizRunAnswer, handleSubmit questionAB [] answers = none) ∧
    (∀ answers : List QuizRunAnswer, (["b", "a"] : List String) ≠ [] →
      handleSubmit questionAB ["b", "a"] answers =
        some (appendAnswer answers
          { questionId := questionAB.id, selectedAnswerIds := ["b", "a"]
            isCorrect := submitIsCorrect questionAB ["b", "a"] })) :=
  submit_correct_iff questionAB ["b", "a"] (by decide) (by decide)

/-- A question with `orderIndex 0` and no answers (catalog data). -/
def gapQ0 : Question := { id := "a", text := "first", orderIndex := 0, answers := [] }

/-- A question with `orderIndex 2`: the gap at index 1 arises in the source
after `deleteQuestion`, which filters without reindexing. -/
def gapQ2 : Question := { id := "b", text := "second", orderIndex := 2, answers := [] }

/-- A quiz whose question orderIndex values have a gap (0 and 2). -/
def gapQuiz : Quiz :=
  { id := "quiz1", title := "t", description := "", createdAt := 0, updatedAt := 0
    questions := [gapQ0, gapQ2] }

/-- Counterexample to claim C5 as stated: on a quiz whose orderIndex values
are 0 and 2 (a gap the source can produce, since `deleteQuestion` filters
without reindexing), reordering with the complete id sequence in its current
presentation order rewrites the second question's `orderIndex` from 2 to 1. -/
theorem reorderQuestions_gap_counterexample :
    gapQ0.orderIndex < gapQ2.orderIndex ∧
    gapQuiz.questions.map (fun q => q.orderIndex) = [0, 2] ∧
    (reorderQuestions gapQuiz ["a", "b"] 1).questions.map (fun q => q.orderIndex) =
      [0, 1] ∧
    (reorderQuestions gapQuiz ["a", "b"] 1).questions.map (fun q => q.orderIndex) ≠
      gapQuiz.questions.map (fun q => q.orderIndex) := by
  decide

/-- Helper for the amended C5: `reorderAux` maps an id sequence drawn from
questions whose `orderIndex` already equals `n +` their position back to that
very question sequence, provided question ids are unique. -/
theorem reorderAux_eq_self (qs : List Question)
    (hids : (qs.map (fun q => q.id)).Nodup) :
    ∀ (l : List Question) (n : Nat), (∀ q ∈ l, q ∈ qs) →
      (∀ i (hi : i < l.length), (l.get ⟨i, hi⟩).orderIndex = n + i) →
      reorderAux qs (l.map (fun q => q.id)) n = l := by
  intro l
  induction l with
  | nil => intro n _ _; rfl
  | cons q rest ih =>
    intro n hmemall hpos
    have hqmem : q ∈ qs := hmemall q (List.mem_cons_self q rest)
    have hfind : qs.find? (fun r => r.id == q.id) = some q := by
      cases hf : qs.find? (fun r => r.id == q.id) with
      | none =>
        have := List.find?_eq_none.mp hf q hqmem
        simp at this
      | some r =>
        have hrmem : r ∈ qs := List.mem_of_find?_eq_some hf
        have hrp := List.find?_some hf
        simp only [beq_iff_eq] at hrp
        have hrq : r = q := List.inj_on_of_nodup_map hids hrmem hqmem hrp
        rw [hrq]
    have hq0 : q.orderIndex = n := by simpa using hpos 0 (by simp)
    have hqeq : ({ q with orderIndex := n } : Question) = q := by
      cases q
      simp_all
    simp only [List.map_cons, reorderAux, hfind, hqeq]
    have hrest : reorderAux qs (rest.map (fun q => q.id)) (n + 1) = rest := by
      refine ih (n + 1) (fun r hr => hmemall r (List.mem_cons_of_mem q hr)) ?_
      intro i hi
      have := hpos (i + 1) (by simpa using Nat.succ_lt_succ hi)
      simpa [Nat.add_comm, Nat.add_left_comm] using this
    rw [hrest]

/-- Claim C5 as amended: `reorderQuestions` with the quiz's complete
question-id sequence leaves every question — `orderIndex` included —
unchanged, provided that sequence lists each question at the position its
`orderIndex` already holds (in particular, the presentation order of any quiz
whose orderIndex values are the contiguous positions 0..n-1); quizzes with
gapped orderIndex values get compacted instead.  Question ids are assumed
unique (data-model invariant). -/
theorem reorderQuestions_id_of_canonical (quiz : Quiz) (l : List Question)
    (now : Int) (hperm : l.Perm quiz.questions)
    (hids : (quiz.questions.map (fun q => q.id)).Nodup)
    (hpos : ∀ i (hi : i < l.length), (l.get ⟨i, hi⟩).orderIndex = i) :
    (reorderQuestions quiz (l.map (fun q => q.id)) now).questions = l ∧
    (reorderQuestions quiz (l.map (fun q => q.id)) now).questions.Perm
      quiz.questions := by
  have hmain : reorderQuestionList quiz.questions (l.map (fun q => q.id)) = l := by
    refine reorderAux_eq_self quiz.questions hids l 0
      (fun q hq => hperm.subset hq) ?_
    intro i hi
    simpa using hpos i hi
  constructor
  · simpa [reorderQuestions, reorderQuestionList] using hmain
  · have : (reorderQuestions quiz (l.map (fun q => q.id)) now).questions = l := by
      simpa [reorderQuestions, reorderQuestionList] using hmain
    rw [this]
    exact hperm

/-- A two-question quiz with contiguous orderIndex values 0 and 1. -/
def tidyQuiz : Quiz :=
  { id := "quiz2", title := "t", description := "", createdAt := 0, updatedAt := 0
    questions :=
      [{ id := "a", text := "first", orderIndex := 0, answers := [] },
       { id := "b", text := "second", orderIndex := 1, answers := [] }] }

/-- Witness for C5's amended claim at the contiguous two-question quiz. -/
theorem reorderQuestions_id_witness :
    (reorderQuestions tidyQuiz (tidyQuiz.questions.map (fun q => q.id)) 9).questions =
      tidyQuiz.questions ∧
    (reorderQuestions tidyQuiz
        (tidyQuiz.questions.map (fun q => q.id)) 9).questions.Perm
      tidyQuiz.questions :=
  reorderQuestions_id_of_canonical tidyQuiz tidyQuiz.questions 9
    (by decide) (by decide) (by decide)

/-- A streak last completed on day 96 with 5 freezers banked. -/
def gapStreak5 : StreakData :=
  { currentStreak := 7, lastCompletedDate := some 96, freezers := 5
    history := emptyHistory }

/-- The same gap scenario with a single freezer. -/
def gapStreak1 : StreakData :=
  { currentStreak := 7, lastCompletedDate := some 96, freezers := 1
    history := emptyHistory }

/-- Claim C1, evaluated at the failing input: with `lastCompletedDate` four
calendar days before today (day 96 vs day 100) and 5 freezers, the gap check
run one millisecond after midnight computes
`diffDays = ceil((4 days + 1ms) / day) - 1 = 4`, consumes 4 freezers
(leaving 1, not the claimed 2) and marks 4 days as `freezed` — days 97, 98
and 99 strictly between, plus today (day 100) itself — while advancing
`lastCompletedDate` to yesterday; with 1 freezer the reset branch behaves as
claimed (streak 0, freezers and date and history untouched). -/
theorem checkStreak_gap4_consumes_four :
    ((checkStreak 100 1 gapStreak5).freezers = 1 ∧
      (checkStreak 100 1 gapStreak5).currentStreak = 7 ∧
      (checkStreak 100 1 gapStreak5).lastCompletedDate = some 99 ∧
      (checkStreak 100 1 gapStreak5).history 97 = some DayMark.freezed ∧
      (checkStreak 100 1 gapStreak5).history 98 = some DayMark.freezed ∧
      (checkStreak 100 1 gapStreak5).history 99 = some DayMark.freezed ∧
      (checkStreak 100 1 gapStreak5).history 100 = some DayMark.freezed) ∧
    ((checkStreak 100 1 gapStreak1).currentStreak = 0 ∧
      (checkStreak 100 1 gapStreak1).freezers = 1 ∧
      (checkStreak 100 1 gapStreak1).lastCompletedDate = some 96 ∧
      (checkStreak 100 1 gapStreak1).history = gapStreak1.history) := by
  refine ⟨by decide, by decide, by decide, by decide, ?_⟩
  rfl

end QuizApp
